import Mathlib

/-!
Shallow embedding of the property filtering/query engine of the
urban-investor repository (source: the single script file; the filtering
subsystem spans `filterProperties`, `checkBudgetMatch`, `checkBhkMatch`,
`checkAmenitiesMatch`, `getActiveFilters`, `getBudgetLabel`,
`getAmenityLabel`, `redirectToFilteredProperties`, `applyUrlFilters`).

Modelling conventions:
- JavaScript strings are `List Char`; the empty list models both the empty
  string and an absent (`undefined`) value, which the source only ever
  distinguishes through truthiness, where both are falsy.
- `String.prototype.includes` is substring containment.
- `Array.prototype.includes` is element membership.
- `String.prototype.split(",")` is `List.splitOn ','` (same semantics:
  splitting the empty string yields one empty piece).
- `parseInt` with no radix argument is modelled with its leading-whitespace
  skip, optional sign, optional `0x`/`0X` hexadecimal prefix, and
  stop-at-first-invalid-character behaviour; `NaN` is `none`.
- `toLowerCase` is modelled on the ASCII range (the only range the listing
  data exercises).
-/

/-- A JavaScript string, as a list of characters. -/
abbrev JSString : Type := List Char

/-- Coercion from Lean string literals into the JS string model. -/
def str (s : String) : JSString := s.toList

/-- JS truthiness of a string: nonempty.  We use `[]` directly in
definitions; this is only documentation. -/
def jsTruthy (s : JSString) : Bool := s ≠ []

/-- `hay.includes(needle)` for JS strings: substring containment. -/
def jsIncludes (hay needle : JSString) : Bool :=
  decide (needle <:+: (hay : List Char))

/-- ASCII model of `String.prototype.toLowerCase`. -/
def toLowerJS (s : JSString) : JSString :=
  (s : List Char).map fun c =>
    if 'A' ≤ c ∧ c ≤ 'Z' then Char.ofNat (c.toNat + 32) else c

/-- Whitespace characters skipped by `parseInt` (ASCII range). -/
def isJsSpace (c : Char) : Bool :=
  c = ' ' || c = '\t' || c = '\n' || c = '\r' || c.toNat = 11 || c.toNat = 12

/-- Decimal digit value of a character, `none` if not a digit. -/
def digitVal? (c : Char) : Option Nat :=
  if '0' ≤ c ∧ c ≤ '9' then some (c.toNat - 48) else none

/-- Hexadecimal digit value of a character, `none` if not a hex digit. -/
def hexVal? (c : Char) : Option Nat :=
  if '0' ≤ c ∧ c ≤ '9' then some (c.toNat - 48)
  else if 'a' ≤ c ∧ c ≤ 'f' then some (c.toNat - 97 + 10)
  else if 'A' ≤ c ∧ c ≤ 'F' then some (c.toNat - 65 + 10)
  else none

/-- Accumulate digits in the given base, stopping at the first character
that is not a digit (as `parseInt` does). -/
def parseDigitsAcc (dv : Char → Option Nat) (base : Nat) :
    List Char → Nat → Nat
  | [], acc => acc
  | c :: cs, acc =>
    match dv c with
    | some d => parseDigitsAcc dv base cs (acc * base + d)
    | none => acc

/-- Parse a nonempty run of digits in the given base; `none` when the very
first character is not a digit (`parseInt` returns `NaN` then). -/
def parseRadix (dv : Char → Option Nat) (base : Nat) (cs : List Char) :
    Option Nat :=
  match cs with
  | [] => none
  | c :: cs' =>
    match dv c with
    | some d => some (parseDigitsAcc dv base cs' d)
    | none => none

/-- Unsigned part of `parseInt` with no radix: a `0x`/`0X` prefix selects
base 16, otherwise base 10. -/
def parseUnsigned (cs : List Char) : Option Nat :=
  match cs with
  | c0 :: c1 :: rest =>
    if c0 = '0' ∧ (c1 = 'x' ∨ c1 = 'X') then parseRadix hexVal? 16 rest
    else parseRadix digitVal? 10 (c0 :: c1 :: rest)
  | _ => parseRadix digitVal? 10 cs

/-- JavaScript `parseInt(s)` (radix argument omitted); `none` models `NaN`. -/
def parseIntJS (s : JSString) : Option Int :=
  match (s : List Char).dropWhile isJsSpace with
  | [] => none
  | c :: rest =>
    if c = '-' then (parseUnsigned rest).map fun n => -(n : Int)
    else if c = '+' then (parseUnsigned rest).map fun n => (n : Int)
    else (parseUnsigned (c :: rest)).map fun n => (n : Int)

/-- `checkBudgetMatch(budget, priceRange)` from the source: a selected
budget bucket matches the two adjacent listing-side price buckets; any
unrecognized bucket value falls to the `default` branch, which returns
`true`. -/
def checkBudgetMatch (budget priceRange : JSString) : Bool :=
  if budget = str "50-100" then
    priceRange == str "50l" || priceRange == str "1cr"
  else if budget = str "100-250" then
    priceRange == str "1cr" || priceRange == str "2.5cr"
  else if budget = str "250-500" then
    priceRange == str "2.5cr" || priceRange == str "5cr"
  else if budget = str "500-1000" then
    priceRange == str "5cr" || priceRange == str "10cr"
  else if budget = str "1000+" then
    priceRange == str "10cr" || priceRange == str "on-request"
  else true

/-- `checkBhkMatch(bhk, cardBhk)` from the source: empty card value matches;
the sentinel `"5+"` matches when some comma-separated option parses (via
`parseInt`, `NaN` guarded) to at least 5; otherwise exact membership of the
selected value among the options. -/
def checkBhkMatch (bhk cardBhk : JSString) : Bool :=
  if cardBhk = [] then true
  else
    let bhkOptions := (cardBhk : List Char).splitOn ','
    if bhk = str "5+" then
      bhkOptions.any fun option =>
        match parseIntJS option with
        | some num => decide ((5 : Int) ≤ num)
        | none => false
    else bhkOptions.contains bhk

/-- The `amenityMap[amenity] || amenity` lookup inside
`checkAmenitiesMatch`: the map sends each of the five known amenity codes
to itself, and the `||` fallback returns the input unchanged on a miss. -/
def amenityAlias (amenity : JSString) : JSString :=
  if amenity = str "pool" then str "pool"
  else if amenity = str "gym" then str "gym"
  else if amenity = str "club" then str "club"
  else if amenity = str "security" then str "security"
  else if amenity = str "solar" then str "solar"
  else amenity

/-- `checkAmenitiesMatch(amenity, cardAmenities)` from the source: empty
card value matches; otherwise the alias-mapped selected amenity must be one
of the comma-separated options. -/
def checkAmenitiesMatch (amenity cardAmenities : JSString) : Bool :=
  if cardAmenities = [] then true
  else
    let amenityOptions := (cardAmenities : List Char).splitOn ','
    let mappedAmenity := amenityAlias amenity
    amenityOptions.contains mappedAmenity

/-- The user's current facet choices, read by `filterProperties` from the
six form controls; `[]` models an absent/empty control value. -/
structure FilterSelection where
  propertyType : JSString
  budget : JSString
  bhk : JSString
  location : JSString
  possession : JSString
  amenities : JSString
deriving DecidableEq

/-- One property card's data attributes, read by `filterProperties` from
the DOM; `[]` models a missing attribute. -/
structure PropertyCard where
  propertyType : JSString
  priceRange : JSString
  bhk : JSString
  location : JSString
  status : JSString
  amenities : JSString
deriving DecidableEq

/-- The per-card body of `filterProperties`: the sequence of six facet
guards, each of which can only turn the `showProperty` flag from `true` to
`false`; mirrors the source statement by statement. -/
def showProperty (sel : FilterSelection) (card : PropertyCard) : Bool :=
  let location := toLowerJS sel.location
  let s := true
  let s :=
    if sel.propertyType != [] && s then
      if card.propertyType != [] && !(jsIncludes card.propertyType sel.propertyType) then
        false
      else s
    else s
  let s :=
    if sel.budget != [] && s then
      if card.priceRange != [] then
        if !(checkBudgetMatch sel.budget card.priceRange) then false else s
      else s
    else s
  let s :=
    if sel.bhk != [] && s then
      if card.bhk != [] then
        if !(checkBhkMatch sel.bhk card.bhk) then false else s
      else s
    else s
  let s :=
    if location != [] && s then
      let cardLocation := toLowerJS card.location
      if cardLocation != [] && !(jsIncludes cardLocation location) then
        false
      else s
    else s
  let s :=
    if sel.possession != [] && s then
      if card.status != [] && card.status != sel.possession then false else s
    else s
  let s :=
    if sel.amenities != [] && s then
      if card.amenities != [] then
        if !(checkAmenitiesMatch sel.amenities card.amenities) then false else s
      else s
    else s
  s

/-- `filterProperties` over a listing collection: the ordered subsequence
of cards whose `showProperty` flag stays `true` (the source sets
`display: block` for exactly these). -/
def filterProperties (sel : FilterSelection) (cards : List PropertyCard) :
    List PropertyCard :=
  cards.filter fun card => showProperty sel card

/-- `matchesPropertyType`, extracted from the property-type guard of
`filterProperties`: empty selection or missing card attribute match;
otherwise the card's type string must contain the selected value
(`String.prototype.includes`). -/
def matchesPropertyType (selected tags : JSString) : Bool :=
  selected == [] || tags == [] || jsIncludes tags selected

/-- `matchesBudget`, extracted from the budget guard of `filterProperties`. -/
def matchesBudget (selected priceRange : JSString) : Bool :=
  selected == [] || priceRange == [] || checkBudgetMatch selected priceRange

/-- `matchesBedrooms`, extracted from the BHK guard of `filterProperties`. -/
def matchesBedrooms (selected cardBhk : JSString) : Bool :=
  selected == [] || cardBhk == [] || checkBhkMatch selected cardBhk

/-- `matchesLocation`, extracted from the location guard of
`filterProperties`: both sides are lower-cased, then substring containment. -/
def matchesLocation (selected cardLocation : JSString) : Bool :=
  toLowerJS selected == [] || toLowerJS cardLocation == [] ||
    jsIncludes (toLowerJS cardLocation) (toLowerJS selected)

/-- `matchesPossession`, extracted from the possession guard of
`filterProperties`: exact equality. -/
def matchesPossession (selected status : JSString) : Bool :=
  selected == [] || status == [] || status == selected

/-- `matchesAmenity`, extracted from the amenities guard of
`filterProperties`. -/
def matchesAmenity (selected cardAmenities : JSString) : Bool :=
  selected == [] || cardAmenities == [] || checkAmenitiesMatch selected cardAmenities

/-- `getBudgetLabel` from the source: bucket code to display label, raw
value on a miss. -/
def getBudgetLabel (budgetValue : JSString) : JSString :=
  if budgetValue = str "50-100" then str "₹50L - ₹1Cr"
  else if budgetValue = str "100-250" then str "₹1Cr - ₹2.5Cr"
  else if budgetValue = str "250-500" then str "₹2.5Cr - ₹5Cr"
  else if budgetValue = str "500-1000" then str "₹5Cr - ₹10Cr"
  else if budgetValue = str "1000+" then str "₹10Cr+"
  else budgetValue

/-- `getAmenityLabel` from the source: amenity code to display name, raw
value on a miss. -/
def getAmenityLabel (amenityValue : JSString) : JSString :=
  if amenityValue = str "pool" then str "Swimming Pool"
  else if amenityValue = str "gym" then str "Gymnasium"
  else if amenityValue = str "club" then str "Clubhouse"
  else if amenityValue = str "security" then str "24/7 Security"
  else if amenityValue = str "solar" then str "Solar Power"
  else amenityValue

/-- `getActiveFilters` from the source: pushes one `"Label: value"` string
per non-empty facet, in the source's fixed order, labelling budget through
`getBudgetLabel` and amenities through `getAmenityLabel`. -/
def getActiveFilters (sel : FilterSelection) : List JSString :=
  (if sel.propertyType != [] then [str "Type: " ++ sel.propertyType] else []) ++
  (if sel.budget != [] then [str "Budget: " ++ getBudgetLabel sel.budget] else []) ++
  (if sel.bhk != [] then [str "BHK: " ++ sel.bhk] else []) ++
  (if sel.location != [] then [str "Location: " ++ sel.location] else []) ++
  (if sel.possession != [] then [str "Status: " ++ sel.possession] else []) ++
  (if sel.amenities != [] then [str "Amenities: " ++ getAmenityLabel sel.amenities] else [])

/-- The query-string encoding of `redirectToFilteredProperties`: one
parameter per non-empty facet, under the source's fixed parameter names,
in the source's append order. -/
def encodeToQuery (sel : FilterSelection) : List (JSString × JSString) :=
  (if sel.propertyType != [] then [(str "type", sel.propertyType)] else []) ++
  (if sel.budget != [] then [(str "budget", sel.budget)] else []) ++
  (if sel.bhk != [] then [(str "bhk", sel.bhk)] else []) ++
  (if sel.location != [] then [(str "location", sel.location)] else []) ++
  (if sel.possession != [] then [(str "status", sel.possession)] else []) ++
  (if sel.amenities != [] then [(str "amenities", sel.amenities)] else [])

/-- `URLSearchParams.get`: first value stored under the key, `none` when
the key is absent. -/
def getParam : List (JSString × JSString) → JSString → Option JSString
  | [], _ => none
  | (k, v) :: rest, key => if k = key then some v else getParam rest key

/-- The `if (x) field.value = x` pattern of `applyUrlFilters`: assign only
a truthy (present and nonempty) parameter value over the current one. -/
def jsAssign (current : JSString) (v : Option JSString) : JSString :=
  match v with
  | some s => if s != [] then s else current
  | none => current

/-- `applyUrlFilters` from the source, restricted to its data flow: read
the six fixed parameter names and overwrite the (initially empty) form
fields with every truthy value found. -/
def decodeFromQuery (q : List (JSString × JSString)) : FilterSelection where
  propertyType := jsAssign [] (getParam q (str "type"))
  budget := jsAssign [] (getParam q (str "budget"))
  bhk := jsAssign [] (getParam q (str "bhk"))
  location := jsAssign [] (getParam q (str "location"))
  possession := jsAssign [] (getParam q (str "status"))
  amenities := jsAssign [] (getParam q (str "amenities"))

/-- The five budget bucket codes recognized by `checkBudgetMatch` and
`getBudgetLabel`. -/
def recognizedBudgets : List JSString :=
  [str "50-100", str "100-250", str "250-500", str "500-1000", str "1000+"]

/-- The five amenity codes recognized by `amenityAlias` and
`getAmenityLabel`. -/
def recognizedAmenities : List JSString :=
  [str "pool", str "gym", str "club", str "security", str "solar"]

/-- A selection whose facet values are drawn from the vocabularies the
source defines (budget buckets and amenity codes; the other facets are
free-form in the source). -/
def recognizedSelection (sel : FilterSelection) : Prop :=
  (sel.budget = [] ∨ sel.budget ∈ recognizedBudgets) ∧
  (sel.amenities = [] ∨ sel.amenities ∈ recognizedAmenities)

/-- The all-empty selection (no facet constraining). -/
def emptySelection : FilterSelection :=
  { propertyType := [], budget := [], bhk := [], location := [],
    possession := [], amenities := [] }

/-- The single listing of Scenario A of the specification. -/
def scenarioACard : PropertyCard :=
  { propertyType := str "Luxury Residence", priceRange := str "10cr",
    bhk := str "4", location := str "Upper East Side, New York",
    status := str "ready", amenities := [] }

/-- The Scenario A selection: only the budget bucket `"1000+"`. -/
def scenarioASelection : FilterSelection :=
  { propertyType := [], budget := str "1000+", bhk := [], location := [],
    possession := [], amenities := [] }

/-- The Scenario D selection: property type `"villa"`, amenity `"pool"`. -/
def scenarioDSelection : FilterSelection :=
  { propertyType := str "villa", budget := [], bhk := [], location := [],
    possession := [], amenities := str "pool" }

/-! ## Helper lemmas -/

/-- A facet guard with a single inner condition only ever lowers the flag. -/
theorem facet_step_single (a b s : Bool) :
    (if a && s then if b then false else s else s) = (s && !(a && b)) := by
  cases a <;> cases b <;> cases s <;> rfl

/-- A facet guard with a nested inner condition only ever lowers the flag. -/
theorem facet_step_nested (a c m s : Bool) :
    (if a && s then (if c then (if m then false else s) else s) else s) =
      (s && !(a && (c && m))) := by
  cases a <;> cases c <;> cases m <;> cases s <;> rfl

/-- Three-way disjunction as the negation of the guard conjunction. -/
theorem or_pattern_eq (x y m : Bool) : (!(!x && (!y && !m))) = (x || y || m) := by
  cases x <;> cases y <;> cases m <;> rfl

theorem matchesPropertyType_guard (v t : JSString) :
    (!((v != []) && ((t != []) && !(jsIncludes t v)))) = matchesPropertyType v t := by
  rw [matchesPropertyType, ← or_pattern_eq]
  rfl

theorem matchesBudget_guard (v pr : JSString) :
    (!((v != []) && ((pr != []) && !(checkBudgetMatch v pr)))) = matchesBudget v pr := by
  rw [matchesBudget, ← or_pattern_eq]
  rfl

theorem matchesBedrooms_guard (v cb : JSString) :
    (!((v != []) && ((cb != []) && !(checkBhkMatch v cb)))) = matchesBedrooms v cb := by
  rw [matchesBedrooms, ← or_pattern_eq]
  rfl

theorem matchesLocation_guard (v cl : JSString) :
    (!((toLowerJS v != []) && ((toLowerJS cl != []) && !(jsIncludes (toLowerJS cl) (toLowerJS v))))) =
      matchesLocation v cl := by
  rw [matchesLocation, ← or_pattern_eq]
  rfl

theorem matchesPossession_guard (v st : JSString) :
    (!((v != []) && ((st != []) && (st != v)))) = matchesPossession v st := by
  rw [matchesPossession, ← or_pattern_eq]
  rfl

/-- The location guard is the property-type guard applied to the
lower-cased strings; both unfold to the same formula. -/
theorem matchesLocation_as_type (v cl : JSString) :
    matchesPropertyType (toLowerJS v) (toLowerJS cl) = matchesLocation v cl := rfl

theorem matchesAmenity_guard (v ca : JSString) :
    (!((v != []) && ((ca != []) && !(checkAmenitiesMatch v ca)))) = matchesAmenity v ca := by
  rw [matchesAmenity, ← or_pattern_eq]
  rfl

/-- The sequential guard chain of `filterProperties` computes the
conjunction of the six extracted facet predicates. -/
theorem showProperty_eq (sel : FilterSelection) (card : PropertyCard) :
    showProperty sel card =
      (matchesPropertyType sel.propertyType card.propertyType &&
       (matchesBudget sel.budget card.priceRange &&
        (matchesBedrooms sel.bhk card.bhk &&
         (matchesLocation sel.location card.location &&
          (matchesPossession sel.possession card.status &&
           matchesAmenity sel.amenities card.amenities))))) := by
  simp only [showProperty, facet_step_single, facet_step_nested,
    matchesPropertyType_guard, matchesBudget_guard, matchesBedrooms_guard,
    matchesLocation_guard, matchesPossession_guard, matchesAmenity_guard,
    matchesLocation_as_type, Bool.true_and, Bool.and_assoc]

/-! ## Claim theorems -/

/-- Claim C1: a listing is in the visible set produced by
`filterProperties` iff it is in the input collection and all six facet
predicates (property type, budget, bedrooms, location, possession,
amenity) hold for it; the facets combine by logical AND only (the right
side is a propositional conjunction, commutative and associative, so the
result is insensitive to evaluation order), and each facet predicate reads
only its own selection field and card field. -/
theorem visible_iff_all_facets (sel : FilterSelection) (cards : List PropertyCard)
    (card : PropertyCard) :
    card ∈ filterProperties sel cards ↔
      (card ∈ cards ∧
       (matchesPropertyType sel.propertyType card.propertyType = true ∧
        matchesBudget sel.budget card.priceRange = true ∧
        matchesBedrooms sel.bhk card.bhk = true ∧
        matchesLocation sel.location card.location = true ∧
        matchesPossession sel.possession card.status = true ∧
        matchesAmenity sel.amenities card.amenities = true)) := by
  rw [filterProperties, List.mem_filter, showProperty_eq]
  simp [Bool.and_eq_true]

/-- Claim C2, counterexample: the non-empty selected bucket `"luxury"` is
not one of the five recognized bucket codes, yet `checkBudgetMatch`
returns `true` against the listing bucket `"50l"` — the `default` branch
of the source returns `true`, so an unrecognized bucket matches listings
rather than matching none. -/
theorem checkBudgetMatch_unrecognized_cex :
    str "luxury" ≠ [] ∧ str "luxury" ∉ recognizedBudgets ∧
      checkBudgetMatch (str "luxury") (str "50l") = true := by
  decide

/-- Claim C2, amended: a selected bucket that is not one of the five
recognized bucket codes falls to the `default` branch and matches every
listing bucket (fail-open), exactly like the empty selection. -/
theorem checkBudgetMatch_default_true (budget priceRange : JSString)
    (h : budget ∉ recognizedBudgets) : checkBudgetMatch budget priceRange = true := by
  simp only [recognizedBudgets, List.mem_cons, List.not_mem_nil, or_false, not_or] at h
  obtain ⟨h1, h2, h3, h4, h5⟩ := h
  simp [checkBudgetMatch, h1, h2, h3, h4, h5]

/-- Witness for `checkBudgetMatch_default_true` at the unrecognized bucket
`"luxury"` against the listing bucket `"1cr"`. -/
theorem checkBudgetMatch_default_true_witness :
    checkBudgetMatch (str "luxury") (str "1cr") = true :=
  checkBudgetMatch_default_true (str "luxury") (str "1cr") (by decide)

/-- Claim C4, counterexample: with the non-empty selected amenity
`"pool"` and an empty listing amenity set, `checkAmenitiesMatch` returns
`true` (the `if (!cardAmenities) return true` guard), not `false` as the
claim states. -/
theorem checkAmenitiesMatch_empty_cex :
    str "pool" ≠ [] ∧ checkAmenitiesMatch (str "pool") [] = true := by
  decide

/-- Claim C4, amended: a missing/empty listing amenity set makes the
amenity predicate return `true` (the facet is skipped, match-all, never a
crash); against a non-empty amenity set, the predicate holds iff the
alias-mapped selected value is literally one of the comma-separated
options. -/
theorem checkAmenitiesMatch_spec (amenity cardAmenities : JSString) :
    (cardAmenities = [] → checkAmenitiesMatch amenity cardAmenities = true) ∧
    (cardAmenities ≠ [] →
      (checkAmenitiesMatch amenity cardAmenities = true ↔
        amenityAlias amenity ∈ cardAmenities.splitOn ',')) := by
  constructor
  · intro h
    simp [checkAmenitiesMatch, h]
  · intro h
    simp [checkAmenitiesMatch, h, List.elem_iff]

/-- Witness for `checkAmenitiesMatch_spec`: both branches at concrete
inputs (`"gym"` against the empty set, and against `"pool,gym"`). -/
theorem checkAmenitiesMatch_spec_witness :
    checkAmenitiesMatch (str "gym") [] = true ∧
      (checkAmenitiesMatch (str "gym") (str "pool,gym") = true ↔
        amenityAlias (str "gym") ∈ (str "pool,gym").splitOn ',') :=
  ⟨(checkAmenitiesMatch_spec (str "gym") []).1 rfl,
   (checkAmenitiesMatch_spec (str "gym") (str "pool,gym")).2 (by decide)⟩

/-- Claim C6: with the selected bucket `"1000+"`, `checkBudgetMatch`
matches exactly the listing buckets `"10cr"` and `"on-request"`; and the
Scenario A single-listing collection with price bucket `"10cr"` is fully
visible under the selection `{budgetBucket: "1000+"}`. -/
theorem checkBudgetMatch_thousand_plus :
    (∀ priceRange : JSString,
      checkBudgetMatch (str "1000+") priceRange = true ↔
        (priceRange = str "10cr" ∨ priceRange = str "on-request")) ∧
    filterProperties scenarioASelection [scenarioACard] = [scenarioACard] := by
  constructor
  · intro priceRange
    rw [checkBudgetMatch]
    rw [if_neg (by decide), if_neg (by decide), if_neg (by decide),
      if_neg (by decide), if_pos rfl]
    simp
  · decide

/-- Claim C7: the empty selection hides nothing — `filterProperties`
returns any non-empty listing collection unchanged, in its original
order, and every listing's `showProperty` flag stays `true`. -/
theorem evaluate_empty_selection (cards : List PropertyCard) (h : cards ≠ []) :
    filterProperties emptySelection cards = cards ∧
      ∀ card ∈ cards, showProperty emptySelection card = true := by
  have hs : ∀ card, showProperty emptySelection card = true := fun card => rfl
  exact ⟨List.filter_eq_self.mpr fun c _ => hs c, fun c _ => hs c⟩

/-- Witness for `evaluate_empty_selection` on the one-listing collection
of Scenario A. -/
theorem evaluate_empty_selection_witness :
    filterProperties emptySelection [scenarioACard] = [scenarioACard] :=
  (evaluate_empty_selection [scenarioACard] (by simp)).1

/-- Claim C9, counterexample: the property-type guard uses substring
containment (`String.prototype.includes`), not set membership: the
selected value `"villa"` matches the listing type string
`"luxury-villa"` although it is not a member of its (singleton) tag set,
and the listing stays visible under `filterProperties`. -/
theorem matchesPropertyType_membership_cex :
    matchesPropertyType (str "villa") (str "luxury-villa") = true ∧
      str "villa" ∉ (str "luxury-villa").splitOn ',' ∧
      str "villa" ≠ str "luxury-villa" ∧
      filterProperties
        { propertyType := str "villa", budget := [], bhk := [], location := [],
          possession := [], amenities := [] }
        [{ propertyType := str "luxury-villa", priceRange := str "1cr",
           bhk := str "3", location := str "Downtown", status := str "ready",
           amenities := [] }] =
        [{ propertyType := str "luxury-villa", priceRange := str "1cr",
           bhk := str "3", location := str "Downtown", status := str "ready",
           amenities := [] }] := by
  decide

/-- Claim C9, amended: with an empty selected value or an empty listing
type string the property-type predicate returns `true`; otherwise it
returns `true` iff the selected value occurs as a substring of the
listing's property-type string — implied by exact membership of the tag,
but strictly looser. -/
theorem matchesPropertyType_spec (selected tags : JSString) :
    (selected = [] → matchesPropertyType selected tags = true) ∧
    (tags = [] → matchesPropertyType selected tags = true) ∧
    (matchesPropertyType selected tags = true ↔
      (selected = [] ∨ tags = [] ∨ selected <:+: tags)) := by
  refine ⟨fun h => by simp [matchesPropertyType, h],
    fun h => by simp [matchesPropertyType, h], ?_⟩
  simp [matchesPropertyType, jsIncludes, or_assoc]

/-- Witness for `matchesPropertyType_spec`: both empty-value branches at
concrete inputs. -/
theorem matchesPropertyType_spec_witness :
    matchesPropertyType [] (str "villa") = true ∧
      matchesPropertyType (str "apartment") [] = true :=
  ⟨(matchesPropertyType_spec [] (str "villa")).1 rfl,
   (matchesPropertyType_spec (str "apartment") []).2.1 rfl⟩

/-! ## Query-string round trip -/

/-- Evaluate `getParam` across one conditional parameter block of
`encodeToQuery`. -/
theorem getParam_block (c : Bool) (k v : JSString)
    (ys : List (JSString × JSString)) (key : JSString) :
    getParam ((if c then [(k, v)] else []) ++ ys) key =
      if c then (if k = key then some v else getParam ys key)
      else getParam ys key := by
  cases c <;> simp [getParam]

/-- Evaluate `getParam` on the final conditional parameter block. -/
theorem getParam_block_last (c : Bool) (k v : JSString) (key : JSString) :
    getParam (if c then [(k, v)] else []) key =
      if c then (if k = key then some v else none) else none := by
  cases c <;> simp [getParam]

/-- The six query parameter names are pairwise distinct. -/
theorem queryKeys_distinct :
    str "type" ≠ str "budget" ∧ str "type" ≠ str "bhk" ∧
    str "type" ≠ str "location" ∧ str "type" ≠ str "status" ∧
    str "type" ≠ str "amenities" ∧ str "budget" ≠ str "type" ∧
    str "budget" ≠ str "bhk" ∧ str "budget" ≠ str "location" ∧
    str "budget" ≠ str "status" ∧ str "budget" ≠ str "amenities" ∧
    str "bhk" ≠ str "type" ∧ str "bhk" ≠ str "budget" ∧
    str "bhk" ≠ str "location" ∧ str "bhk" ≠ str "status" ∧
    str "bhk" ≠ str "amenities" ∧ str "location" ≠ str "type" ∧
    str "location" ≠ str "budget" ∧ str "location" ≠ str "bhk" ∧
    str "location" ≠ str "status" ∧ str "location" ≠ str "amenities" ∧
    str "status" ≠ str "type" ∧ str "status" ≠ str "budget" ∧
    str "status" ≠ str "bhk" ∧ str "status" ≠ str "location" ∧
    str "status" ≠ str "amenities" ∧ str "amenities" ≠ str "type" ∧
    str "amenities" ≠ str "budget" ∧ str "amenities" ≠ str "bhk" ∧
    str "amenities" ≠ str "location" ∧ str "amenities" ≠ str "status" := by
  decide

/-- Claim C3: decoding the query encoding of a selection whose values are
drawn from the recognized vocabularies yields the selection again; the
encoding emits one entry per non-empty facet under the parameter names
`type`, `budget`, `bhk`, `location`, `status`, `amenities`, and the decode
reads exactly those names, leaving absent parameters empty. -/
theorem decode_encode (sel : FilterSelection) (h : recognizedSelection sel) :
    decodeFromQuery (encodeToQuery sel) = sel := by
  rcases sel with ⟨pt, bu, bh, lo, po, am⟩
  by_cases h1 : pt = [] <;> by_cases h2 : bu = [] <;> by_cases h3 : bh = [] <;>
    by_cases h4 : lo = [] <;> by_cases h5 : po = [] <;> by_cases h6 : am = [] <;>
    simp [decodeFromQuery, encodeToQuery, getParam_block, getParam_block_last,
      getParam, jsAssign, bne_iff_ne, queryKeys_distinct, h1, h2, h3, h4, h5, h6]

/-- Witness for `decode_encode` on the Scenario D selection
(`{propertyType: "villa", amenity: "pool"}`). -/
theorem decode_encode_witness :
    decodeFromQuery (encodeToQuery scenarioDSelection) = scenarioDSelection :=
  decode_encode scenarioDSelection ⟨Or.inl rfl, Or.inr (by decide)⟩

/-! ## Active-filter summary -/

/-- Modelled from the spec: `describeActiveFilters` — for each non-empty
facet, in the fixed facet order (type, budget, bedrooms, location,
possession, amenity), one `"Label: value"` string; the budget value is
rendered through the bucket-label table and the amenity value through the
amenity-label table, every other facet renders its raw value. -/
def describeActiveFilters (sel : FilterSelection) : List JSString :=
  ([(str "Type: ", sel.propertyType, sel.propertyType),
    (str "Budget: ", sel.budget, getBudgetLabel sel.budget),
    (str "BHK: ", sel.bhk, sel.bhk),
    (str "Location: ", sel.location, sel.location),
    (str "Status: ", sel.possession, sel.possession),
    (str "Amenities: ", sel.amenities, getAmenityLabel sel.amenities)]
   : List (JSString × JSString × JSString)).filterMap fun row =>
    if row.2.1 != [] then some (row.1 ++ row.2.2) else none

/-- Claim C8: `getActiveFilters` produces exactly the spec's
`describeActiveFilters` output — one labelled string per non-empty facet
in the fixed facet order, with the budget and amenity label lookups and raw
values elsewhere — and on the Scenario D selection it returns
`["Type: villa", "Amenities: Swimming Pool"]`. -/
theorem getActiveFilters_spec :
    (∀ sel : FilterSelection, getActiveFilters sel = describeActiveFilters sel) ∧
    getActiveFilters scenarioDSelection =
      [str "Type: villa", str "Amenities: Swimming Pool"] := by
  constructor
  · intro sel
    by_cases h1 : sel.propertyType = [] <;> by_cases h2 : sel.budget = [] <;>
      by_cases h3 : sel.bhk = [] <;> by_cases h4 : sel.location = [] <;>
      by_cases h5 : sel.possession = [] <;> by_cases h6 : sel.amenities = [] <;>
      simp [getActiveFilters, describeActiveFilters, bne_iff_ne,
        h1, h2, h3, h4, h5, h6]
  · decide

/-! ## Decimal numerals and the bedroom-option encoding -/

/-- The character of a decimal digit value. -/
def digitChar (d : Nat) : Char := Char.ofNat (48 + d)

/-- The canonical decimal numeral of a natural number (JS number-to-string
conversion for the bedroom counts stored in `data-bhk`). -/
def natToChars (n : Nat) : JSString :=
  if n = 0 then ['0'] else ((Nat.digits 10 n).map digitChar).reverse

/-- The comma-joined `data-bhk` attribute of a listing whose bedroom
option set is the given list of numbers. -/
def encodeBhkSet (ns : List Nat) : JSString :=
  List.intercalate [','] (ns.map natToChars)

theorem digitVal?_digitChar {d : Nat} (h : d < 10) :
    digitVal? (digitChar d) = some d := by
  interval_cases d <;> decide

theorem digitChar_not_space {d : Nat} (h : d < 10) :
    isJsSpace (digitChar d) = false := by
  interval_cases d <;> decide

theorem digitChar_ne_special {d : Nat} (h : d < 10) :
    digitChar d ≠ '-' ∧ digitChar d ≠ '+' ∧ digitChar d ≠ 'x' ∧
      digitChar d ≠ 'X' ∧ digitChar d ≠ ',' := by
  interval_cases d <;> decide

theorem natToChars_digits (n : Nat) :
    ∀ c ∈ natToChars n, ∃ d, d < 10 ∧ c = digitChar d := by
  intro c hc
  by_cases h : n = 0
  · subst h
    simp [natToChars] at hc
    exact ⟨0, by norm_num, by rw [hc]; decide⟩
  · rw [natToChars, if_neg h, List.mem_reverse] at hc
    obtain ⟨d, hd, rfl⟩ := List.mem_map.mp hc
    exact ⟨d, Nat.digits_lt_base (by norm_num) hd, rfl⟩

theorem natToChars_ne_nil (n : Nat) : natToChars n ≠ [] := by
  by_cases h : n = 0
  · subst h; decide
  · have hds : Nat.digits 10 n ≠ [] := Nat.digits_ne_nil_iff_ne_zero.mpr h
    simp [natToChars, h, hds]

theorem parseDigitsAcc_digits (ds : List Nat) (acc : Nat)
    (h : ∀ d ∈ ds, d < 10) :
    parseDigitsAcc digitVal? 10 (ds.map digitChar) acc =
      ds.foldl (fun a d => a * 10 + d) acc := by
  induction ds generalizing acc with
  | nil => rfl
  | cons d tl ih =>
    have hd : d < 10 := h d (List.mem_cons_self d tl)
    simp only [List.map_cons, parseDigitsAcc, digitVal?_digitChar hd,
      List.foldl_cons]
    exact ih (acc * 10 + d) fun x hx => h x (List.mem_cons_of_mem d hx)

theorem parseRadix_digits (ds : List Nat) (hne : ds ≠ [])
    (h : ∀ d ∈ ds, d < 10) :
    parseRadix digitVal? 10 (ds.map digitChar) =
      some (ds.foldl (fun a d => a * 10 + d) 0) := by
  cases ds with
  | nil => exact absurd rfl hne
  | cons d tl =>
    have hd : d < 10 := h d (List.mem_cons_self d tl)
    simp only [List.map_cons, parseRadix, digitVal?_digitChar hd,
      List.foldl_cons, Nat.zero_mul, Nat.zero_add]
    rw [parseDigitsAcc_digits tl d fun x hx => h x (List.mem_cons_of_mem d hx)]

theorem foldl_reverse_ofDigits (ds : List Nat) (acc : Nat) :
    (ds.reverse).foldl (fun a d => a * 10 + d) acc =
      acc * 10 ^ ds.length + Nat.ofDigits 10 ds := by
  induction ds generalizing acc with
  | nil => simp
  | cons d tl ih =>
    simp only [List.reverse_cons, List.foldl_append, List.foldl_cons,
      List.foldl_nil, ih, Nat.ofDigits_cons, List.length_cons]
    ring

theorem parseRadix_natToChars (n : Nat) :
    parseRadix digitVal? 10 (natToChars n) = some n := by
  by_cases h : n = 0
  · subst h; decide
  · have hds : Nat.digits 10 n ≠ [] := Nat.digits_ne_nil_iff_ne_zero.mpr h
    have hlt : ∀ d ∈ (Nat.digits 10 n).reverse, d < 10 := fun d hd =>
      Nat.digits_lt_base (by norm_num) (List.mem_reverse.mp hd)
    have hrne : (Nat.digits 10 n).reverse ≠ [] := by simpa using hds
    rw [natToChars, if_neg h, ← List.map_reverse]
    rw [parseRadix_digits _ hrne hlt]
    rw [foldl_reverse_ofDigits (Nat.digits 10 n) 0]
    simp [Nat.ofDigits_digits]

theorem parseUnsigned_natToChars (n : Nat) :
    parseUnsigned (natToChars n) = some n := by
  rcases hl : natToChars n with _ | ⟨c0, tl⟩
  · exact absurd hl (natToChars_ne_nil n)
  · cases tl with
    | nil =>
      simp only [parseUnsigned]
      rw [← hl]
      exact parseRadix_natToChars n
    | cons c1 rest =>
      obtain ⟨d, hd, rfl⟩ : ∃ d, d < 10 ∧ c1 = digitChar d :=
        natToChars_digits n c1
          (by rw [hl]; exact List.mem_cons_of_mem _ (List.mem_cons_self _ _))
      obtain ⟨-, -, hx, hX, -⟩ := digitChar_ne_special hd
      simp only [parseUnsigned]
      rw [if_neg (by rintro ⟨-, h | h⟩; exact hx h; exact hX h)]
      rw [← hl]
      exact parseRadix_natToChars n

theorem parseIntJS_natToChars (n : Nat) :
    parseIntJS (natToChars n) = some (n : Int) := by
  rcases hl : natToChars n with _ | ⟨c0, tl⟩
  · exact absurd hl (natToChars_ne_nil n)
  · obtain ⟨d, hd, rfl⟩ : ∃ d, d < 10 ∧ c0 = digitChar d :=
      natToChars_digits n c0 (by rw [hl]; exact List.mem_cons_self _ _)
    obtain ⟨hminus, hplus, -, -, -⟩ := digitChar_ne_special hd
    simp only [parseIntJS, List.dropWhile_cons, digitChar_not_space hd,
      Bool.false_eq_true, if_false, if_neg hminus, if_neg hplus]
    rw [← hl, parseUnsigned_natToChars]
    rfl

/-- `,` never occurs in a decimal numeral. -/
theorem comma_not_mem_natToChars (n : Nat) : ',' ∉ natToChars n := by
  intro hc
  obtain ⟨d, hd, hdc⟩ := natToChars_digits n ',' hc
  exact (digitChar_ne_special hd).2.2.2.2 hdc.symm

/-- Splitting the comma-joined bedroom encoding recovers the numerals. -/
theorem splitOn_encodeBhkSet (ns : List Nat) (h : ns ≠ []) :
    (encodeBhkSet ns).splitOn ',' = ns.map natToChars := by
  apply List.splitOn_intercalate
  · intro l hl
    obtain ⟨n, -, rfl⟩ := List.mem_map.mp hl
    exact comma_not_mem_natToChars n
  · simpa using h

theorem encodeBhkSet_ne_nil (ns : List Nat) (h : ns ≠ []) :
    encodeBhkSet ns ≠ [] := by
  intro he
  have hsp := splitOn_encodeBhkSet ns h
  rw [he] at hsp
  have : ([] : JSString) ∈ ns.map natToChars := by
    rw [← hsp]; decide
  obtain ⟨n, -, hn⟩ := List.mem_map.mp this
  exact natToChars_ne_nil n hn

/-- Claim C5: over any non-empty listing bedroom-option set (encoded, as
in the `data-bhk` attribute, as the comma-joined decimal numerals of its
elements), a non-empty selected value other than the sentinel matches iff
it is literally one of the encoded options, and the sentinel `"5+"`
matches iff some element of the set is at least 5 — so `{5,6}` matches
`"5+"` and `{4}` does not (witness). -/
theorem checkBhkMatch_spec (ns : List Nat) (v : JSString) (hns : ns ≠ []) :
    (checkBhkMatch (str "5+") (encodeBhkSet ns) = true ↔ ∃ n ∈ ns, 5 ≤ n) ∧
    (v ≠ [] → v ≠ str "5+" →
      (checkBhkMatch v (encodeBhkSet ns) = true ↔ v ∈ ns.map natToChars)) := by
  have hne := encodeBhkSet_ne_nil ns hns
  have hsplit := splitOn_encodeBhkSet ns hns
  constructor
  · simp only [checkBhkMatch]
    rw [if_neg hne]
    simp only [if_true]
    rw [hsplit, List.any_eq_true]
    constructor
    · rintro ⟨o, ho, hf⟩
      obtain ⟨n, hn, rfl⟩ := List.mem_map.mp ho
      refine ⟨n, hn, ?_⟩
      simp only [parseIntJS_natToChars, decide_eq_true_eq] at hf
      exact_mod_cast hf
    · rintro ⟨n, hn, h5⟩
      refine ⟨natToChars n, List.mem_map_of_mem natToChars hn, ?_⟩
      simp only [parseIntJS_natToChars, decide_eq_true_eq]
      exact_mod_cast h5
  · intro _ hv5
    simp only [checkBhkMatch]
    rw [if_neg hne, if_neg hv5, hsplit]
    simp [List.elem_iff]

/-- Witness for `checkBhkMatch_spec`: the sets `{5,6}` (matches `"5+"`)
and the literal option `"4"` against the set `{4}`. -/
theorem checkBhkMatch_spec_witness :
    checkBhkMatch (str "5+") (encodeBhkSet [5, 6]) = true ∧
      (checkBhkMatch (str "4") (encodeBhkSet [4]) = true ↔
        str "4" ∈ ([4] : List Nat).map natToChars) :=
  ⟨(checkBhkMatch_spec [5, 6] (str "4") (by decide)).1.mpr ⟨5, by decide, by decide⟩,
   (checkBhkMatch_spec [4] (str "4") (by decide)).2 (by decide) (by decide)⟩

/-- Claim C10: `checkBhkMatch` is total — it returns a boolean for every
selected value and every comma-separated listing bedroom string — and
under the `"5+"` sentinel a match can only come from an option that
actually parses to an integer of at least 5: options whose `parseInt`
result is `NaN` are ignored by the `!isNaN` guard and never count. -/
theorem checkBhkMatch_total_nan_guard (bhk cardBhk : JSString) :
    (checkBhkMatch bhk cardBhk = true ∨ checkBhkMatch bhk cardBhk = false) ∧
    (cardBhk ≠ [] → checkBhkMatch (str "5+") cardBhk = true →
      ∃ o ∈ cardBhk.splitOn ',', ∃ n : Int, parseIntJS o = some n ∧ 5 ≤ n) := by
  constructor
  · exact Bool.eq_false_or_eq_true _
  · intro h ht
    simp only [checkBhkMatch] at ht
    rw [if_neg h] at ht
    simp only [if_true] at ht
    rw [List.any_eq_true] at ht
    obtain ⟨o, ho, hfo⟩ := ht
    refine ⟨o, ho, ?_⟩
    cases hp : parseIntJS o with
    | none => rw [hp] at hfo; simp at hfo
    | some n =>
      rw [hp] at hfo
      simp only [decide_eq_true_eq] at hfo
      exact ⟨n, rfl, hfo⟩

/-- Witness for `checkBhkMatch_total_nan_guard`: the bedroom string
`"abc,6"`, whose malformed first option is ignored while `"6"` produces
the match. -/
theorem checkBhkMatch_total_nan_guard_witness :
    ∃ o ∈ (str "abc,6").splitOn ',', ∃ n : Int, parseIntJS o = some n ∧ 5 ≤ n :=
  (checkBhkMatch_total_nan_guard (str "5+") (str "abc,6")).2 (by decide) (by decide)
